import Mathlib

/-!
Verification of the meal-image mapping engine.

This file is a shallow embedding, in Lean 4, of the matching engine of the
meal-image mapping Lambda function: the dietary classifier
(vegetarian-detection.js), the two similarity scorers, the match selector
and the per-batch orchestration (index.js).  Definitions follow the
JavaScript source line by line; JavaScript numbers are modelled as
rationals, `Math.sqrt` (a host float primitive, not part of the sources)
is abstracted as an explicit function parameter, fallible code returns
`Except String`, and JavaScript `undefined`/`null` fields are modelled
with `Option`.  `String.prototype.toLowerCase` and the `\s` character
class are modelled on the ASCII texts this program handles.
-/

set_option allowUnsafeReducibility true

attribute [semireducible] Rat.mul Rat.inv Rat.add Rat.sub Rat.neg Rat.ofScientific

namespace MealImageMapping

/-- ASCII lower-casing of one character (model of JavaScript
`toLowerCase` on the ASCII texts handled here). -/
def lowerChar (c : Char) : Char :=
  if 65 ≤ c.toNat ∧ c.toNat ≤ 90 then Char.ofNat (c.toNat + 32) else c

/-- Model of `String.prototype.toLowerCase`. -/
def jsToLowerCase (s : String) : String := ⟨s.data.map lowerChar⟩

/-- Whether the first list is a leading segment of the second. -/
def leadsList : List Char → List Char → Bool
  | [], _ => true
  | _ :: _, [] => false
  | a :: as, b :: bs => a == b && leadsList as bs

/-- Whether `needle` occurs as a contiguous run of the haystack. -/
def containsSubCL (needle : List Char) : List Char → Bool
  | [] => leadsList needle []
  | c :: rest => leadsList needle (c :: rest) || containsSubCL needle rest

/-- Model of `String.prototype.includes`: `includes s needle` is
`s.includes(needle)` from JavaScript. -/
def includes (s needle : String) : Bool := containsSubCL needle.data s.data

/-! Keyword vocabularies, transcribed verbatim (order and duplicates
included: the scoring loops below iterate every entry, so a root word
listed twice counts twice, exactly as in the source). -/

def VEGETARIAN_INDICATORS : List String := [
  "paneer", "tofu", "soy", "beans", "lentils", "dal",
  "chickpeas", "rajma", "chana", "moong", "masoor", "urad",
  "toor", "black beans", "kidney beans", "white beans", "tempeh", "seitan",
  "quinoa", "nuts", "almonds", "cashews", "peanuts", "vegetable",
  "veggie", "potato", "onion", "tomato", "carrot", "spinach",
  "palak", "cabbage", "cauliflower", "broccoli", "peas", "corn",
  "bell pepper", "capsicum", "eggplant", "brinjal", "okra", "lady finger",
  "bitter gourd", "bottle gourd", "ridge gourd", "snake gourd", "pumpkin", "sweet potato",
  "beetroot", "radish", "cucumber", "lettuce", "cabbage", "mushroom",
  "ginger", "garlic", "coriander", "mint", "curry leaves", "fenugreek",
  "methi", "dill", "basil", "oregano", "rice", "wheat",
  "flour", "atta", "maida", "semolina", "rava", "sooji",
  "oats", "barley", "millet", "bajra", "jowar", "ragi",
  "corn flour", "milk", "curd", "yogurt", "dahi", "butter",
  "ghee", "cheese", "cream", "buttermilk", "lassi", "paneer",
  "cottage cheese", "turmeric", "cumin", "coriander", "cardamom", "cinnamon",
  "cloves", "pepper", "chili", "red chili", "green chili", "mustard",
  "fenugreek", "asafoetida", "hing", "bay leaves", "curry leaves", "mint leaves",
  "coriander leaves", "steamed", "boiled", "roasted", "grilled", "baked",
  "stir-fried", "sautéed", "vegetarian", "veggie", "vegan", "sabzi",
  "subzi", "curry", "masala", "tikka", "biryani", "pulao",
  "fried rice", "noodles", "pasta", "sandwich", "wrap", "salad",
  "soup", "stew", "gravy", "sauce", "chutney", "pickle",
  "raita", "dal", "sambar", "rasam", "kadhi", "korma",
  "butter masala", "tikka masala", "palak paneer", "mutter paneer", "chana masala", "rajma masala",
  "aloo gobi", "baingan bharta", "aloo matar", "mushroom curry", "vegetable biryani", "paneer biryani",
  "mushroom biryani", "vegetable pulao", "jeera rice", "coconut rice", "lemon rice", "tamarind rice",
  "curd rice", "bisi bele bath", "upma", "poha", "idli", "dosa",
  "uttapam", "pancake", "paratha", "roti", "naan", "kulcha",
  "poori", "chapati", "phulka", "thepla", "methi thepla", "aloo paratha",
  "gobi paratha", "paneer paratha", "onion paratha", "apple", "banana", "orange",
  "mango", "grapes", "strawberry", "blueberry", "pineapple", "papaya",
  "guava", "pomegranate", "watermelon", "muskmelon", "coconut", "dates",
  "figs", "raisins", "dry fruits", "nuts", "tea", "coffee",
  "milk", "lassi", "buttermilk", "juice", "smoothie", "lemonade",
  "coconut water", "tender coconut"]

def NON_VEGETARIAN_INDICATORS : List String := [
  "chicken", "mutton", "lamb", "beef", "pork", "duck",
  "turkey", "goat", "meat", "flesh", "protein", "animal",
  "fish", "salmon", "tuna", "prawn", "shrimp", "crab",
  "lobster", "oyster", "mussel", "clam", "squid", "octopus",
  "seafood", "marine", "sea food", "egg", "eggs", "omelette",
  "scrambled", "boiled egg", "fried egg", "egg curry", "egg biryani", "egg roll",
  "egg sandwich", "non-vegetarian", "non veg", "nonveg", "nonvegetarian", "meat curry",
  "chicken curry", "mutton curry", "fish curry", "prawn curry", "egg curry", "chicken biryani",
  "mutton biryani", "fish biryani", "prawn biryani", "egg biryani", "chicken tikka", "mutton tikka",
  "fish tikka", "prawn tikka", "chicken masala", "mutton masala", "fish masala", "prawn masala",
  "chicken korma", "mutton korma", "fish korma", "prawn korma", "chicken tandoori", "mutton tandoori",
  "fish tandoori", "prawn tandoori", "chicken 65", "mutton 65", "fish 65", "prawn 65",
  "chicken lollipop", "mutton seekh", "fish fry", "prawn fry", "chicken fry", "mutton fry",
  "chicken roll", "mutton roll", "fish roll", "prawn roll", "egg roll", "chicken sandwich",
  "mutton sandwich", "fish sandwich", "prawn sandwich", "egg sandwich", "chicken burger", "mutton burger",
  "fish burger", "prawn burger", "egg burger", "chicken pizza", "mutton pizza", "fish pizza",
  "prawn pizza", "egg pizza", "chicken pasta", "mutton pasta", "fish pasta", "prawn pasta",
  "egg pasta", "chicken noodles", "mutton noodles", "fish noodles", "prawn noodles", "egg noodles",
  "chicken soup", "mutton soup", "fish soup", "prawn soup", "egg soup", "chicken stew",
  "mutton stew", "fish stew", "prawn stew", "egg stew", "chicken gravy", "mutton gravy",
  "fish gravy", "prawn gravy", "egg gravy", "chicken sauce", "mutton sauce", "fish sauce",
  "prawn sauce", "egg sauce", "chicken chutney", "mutton chutney", "fish chutney", "prawn chutney",
  "egg chutney", "chicken pickle", "mutton pickle", "fish pickle", "prawn pickle", "egg pickle",
  "chicken raita", "mutton raita", "fish raita", "prawn raita", "egg raita", "grilled chicken",
  "roasted chicken", "baked chicken", "fried chicken", "steamed fish", "grilled fish", "roasted fish",
  "baked fish", "fried fish", "grilled mutton", "roasted mutton", "baked mutton", "fried mutton",
  "grilled prawn", "roasted prawn", "baked prawn", "fried prawn", "grilled egg", "roasted egg",
  "baked egg", "fried egg", "butter chicken", "chicken tikka masala", "mutton tikka masala", "fish tikka masala",
  "prawn tikka masala", "egg tikka masala", "chicken korma", "mutton korma", "fish korma", "prawn korma",
  "egg korma", "chicken vindaloo", "mutton vindaloo", "fish vindaloo", "prawn vindaloo", "egg vindaloo",
  "chicken jalfrezi", "mutton jalfrezi", "fish jalfrezi", "prawn jalfrezi", "egg jalfrezi", "chicken dopiaza",
  "mutton dopiaza", "fish dopiaza", "prawn dopiaza", "egg dopiaza", "chicken makhani", "mutton makhani",
  "fish makhani", "prawn makhani", "egg makhani", "chicken kadai", "mutton kadai", "fish kadai",
  "prawn kadai", "egg kadai", "chicken chettinad", "mutton chettinad", "fish chettinad", "prawn chettinad",
  "egg chettinad", "chicken hyderabadi", "mutton hyderabadi", "fish hyderabadi", "prawn hyderabadi", "egg hyderabadi",
  "chicken kerala", "mutton kerala", "fish kerala", "prawn kerala", "egg kerala", "chicken goan",
  "mutton goan", "fish goan", "prawn goan", "egg goan", "chicken bengali", "mutton bengali",
  "fish bengali", "prawn bengali", "egg bengali", "chicken punjabi", "mutton punjabi", "fish punjabi",
  "prawn punjabi", "egg punjabi", "chicken south indian", "mutton south indian", "fish south indian", "prawn south indian",
  "egg south indian", "chicken north indian", "mutton north indian", "fish north indian", "prawn north indian", "egg north indian",
  "chicken west indian", "mutton west indian", "fish west indian", "prawn west indian", "egg west indian", "chicken east indian",
  "mutton east indian", "fish east indian", "prawn east indian", "egg east indian"]

def STRONG_VEGETARIAN_INDICATORS : List String := [
  "vegetarian", "veggie", "vegan", "pure veg", "pure vegetarian", "sattvic",
  "jain", "brahmin", "pure veg restaurant"]

def STRONG_NON_VEGETARIAN_INDICATORS : List String := [
  "non-vegetarian", "non veg", "nonveg", "nonvegetarian", "meat", "chicken",
  "mutton", "fish", "prawn", "egg", "seafood", "maas"]

/-- Lower-cased concatenation of a meal name and description, the `text`
local of `detectMealVegetarian`. -/
def mealText (mealName description : String) : String :=
  jsToLowerCase (mealName ++ " " ++ description)

/-- Count of indicators of `l` occurring in `text` (the scoring loops of
the classifier; duplicates in `l` count every time, as in the source). -/
def indicatorScore (text : String) (l : List String) : Nat :=
  (l.filter (fun ind => includes text ind)).length

/-- Dietary classifier for meals (vegetarian-detection.js,
`detectMealVegetarian`). -/
def detectMealVegetarian (mealName description : String) : Bool :=
  if mealName = "" then true
  else
    let text := mealText mealName description
    if STRONG_NON_VEGETARIAN_INDICATORS.any (fun ind => includes text ind) then false
    else if STRONG_VEGETARIAN_INDICATORS.any (fun ind => includes text ind) then true
    else
      let vegetarianScore := indicatorScore text VEGETARIAN_INDICATORS
      let nonVegetarianScore := indicatorScore text NON_VEGETARIAN_INDICATORS
      if vegetarianScore = 0 ∧ nonVegetarianScore = 0 then true
      else decide (nonVegetarianScore ≤ vegetarianScore)

/-- Dietary classifier for images (vegetarian-detection.js,
`detectImageVegetarian`); url, name and description may be absent
(JavaScript `undefined`), and a falsy url defaults to vegetarian. -/
def detectImageVegetarian (imageUrl imageName description : Option String) : Bool :=
  match imageUrl with
  | none => true
  | some u =>
    if u = "" then true
    else
      let text := jsToLowerCase (u ++ " " ++ imageName.getD "" ++ " " ++ description.getD "")
      if STRONG_NON_VEGETARIAN_INDICATORS.any (fun ind => includes text ind) then false
      else if STRONG_VEGETARIAN_INDICATORS.any (fun ind => includes text ind) then true
      else
        let vegetarianScore := indicatorScore text VEGETARIAN_INDICATORS
        let nonVegetarianScore := indicatorScore text NON_VEGETARIAN_INDICATORS
        if vegetarianScore = 0 ∧ nonVegetarianScore = 0 then true
        else decide (nonVegetarianScore ≤ vegetarianScore)

/-! Similarity scorers (index.js, `calculateCosineSimilarity` and
`calculateTextSimilarity`). -/

/-- Accumulator of the cosine loop: running dot product and the two
squared norms. -/
structure CosineAcc where
  dotProduct : ℚ
  normA : ℚ
  normB : ℚ
deriving Repr, DecidableEq

/-- The indexed for-loop of `calculateCosineSimilarity`, walking both
vectors in step. -/
def cosineLoop : List ℚ → List ℚ → CosineAcc → CosineAcc
  | a :: as, b :: bs, acc =>
      cosineLoop as bs ⟨acc.dotProduct + a * b, acc.normA + a * a, acc.normB + b * b⟩
  | _, _, acc => acc

/-- Cosine similarity (index.js lines 306-323).  `sqrt` abstracts the
host primitive `Math.sqrt`; the length-mismatch error of the source is
an `Except.error` carrying the same message. -/
def calculateCosineSimilarity (sqrt : ℚ → ℚ) (vectorA vectorB : List ℚ) :
    Except String ℚ :=
  if vectorA.length ≠ vectorB.length then
    Except.error ("Vector length mismatch: " ++ toString vectorA.length ++ " vs "
      ++ toString vectorB.length)
  else
    let acc := cosineLoop vectorA vectorB ⟨0, 0, 0⟩
    let magnitude := sqrt acc.normA * sqrt acc.normB
    Except.ok (if magnitude = 0 then 0 else acc.dotProduct / magnitude)

/-- Dot product of two vectors, the mathematical reading of the loop. -/
def dotProd (a b : List ℚ) : ℚ := (List.zipWith (· * ·) a b).sum

/-- Sum of squares of a vector (the squared Euclidean norm). -/
def normSq (a : List ℚ) : ℚ := (a.map (fun x => x * x)).sum

/-- Characters the normalizer keeps: the regex `[^a-z0-9\s]` strips
everything else after lower-casing.  Whitespace here is the ASCII part
of the `\s` class. -/
def isWhitespaceChar (c : Char) : Bool :=
  c == ' ' || c == '\t' || c == '\n' || c == '\r' || c.toNat == 11 || c.toNat == 12

def isKeptChar (c : Char) : Bool :=
  decide (97 ≤ c.toNat ∧ c.toNat ≤ 122) || decide (48 ≤ c.toNat ∧ c.toNat ≤ 57)
    || isWhitespaceChar c

/-- Maximal runs of non-whitespace characters (the `trim`, split on
`\s+` and drop-empty steps of the normalizer). -/
def splitWordsAux : List Char → List Char → List (List Char)
  | cur, [] => if cur = [] then [] else [cur.reverse]
  | cur, c :: cs =>
      if isWhitespaceChar c then
        if cur = [] then splitWordsAux [] cs else cur.reverse :: splitWordsAux [] cs
      else splitWordsAux (c :: cur) cs

/-- The `normalize` closure of `calculateTextSimilarity`: lower-case,
strip characters outside `[a-z0-9\s]`, split into words. -/
def normalize (text : String) : List (List Char) :=
  splitWordsAux [] ((jsToLowerCase text).data.filter isKeptChar)

/-- Jaccard text similarity (index.js lines 328-350): word sets compared
with set semantics, after both empty and one empty are special-cased. -/
def calculateTextSimilarity (text1 text2 : String) : ℚ :=
  let words1 := normalize text1
  let words2 := normalize text2
  if words1.length = 0 ∧ words2.length = 0 then 1
  else if words1.length = 0 ∨ words2.length = 0 then 0
  else
    let set1 := words1.dedup
    let set2 := words2.dedup
    let intersection := set1.filter (fun w => decide (w ∈ set2))
    let union := (set1 ++ set2).dedup
    (intersection.length : ℚ) / (union.length : ℚ)

/-! Match selector (index.js, `findBestImageMatch`).  The cuisine map and
the two thresholds are module-level state and configuration in the
source; they are explicit parameters here. -/

/-- One cuisine record as stored in the cuisine map: `loadCuisineMap`
only inserts records whose name and imageUrl are both truthy. -/
structure Cuisine where
  name : String
  imageUrl : String
deriving Repr, DecidableEq

/-- One entry of the image catalog; every field a JavaScript object may
lack is an `Option`. -/
structure ImageRecord where
  name : Option String
  url : Option String
  description : Option String
  embedding : List ℚ
  isVegetarian : Option Bool
deriving Repr, DecidableEq

/-- Resolution of an image's vegetarian flag (index.js lines 366-368):
the catalog value when present, otherwise the classifier. -/
def resolveImageVegetarian (img : ImageRecord) : Bool :=
  match img.isVegetarian with
  | some b => b
  | none => detectImageVegetarian img.url img.name img.description

/-- Loop state of `findBestImageMatch`. -/
structure MatchState where
  bestMatch : Option ImageRecord
  bestCosineScore : ℚ
  bestTextScore : ℚ
  method : String
  reason : String
deriving Repr, DecidableEq

/-- The state before the first catalog entry is scanned. -/
def initialMatchState : MatchState :=
  { bestMatch := none, bestCosineScore := 0, bestTextScore := 0,
    method := "none", reason := "No suitable match found" }

/-- Three-digit zero padding for the fractional part of `toFixed3`. -/
def pad3 (n : Nat) : String :=
  if n < 10 then "00" ++ toString n
  else if n < 100 then "0" ++ toString n
  else toString n

/-- Model of JavaScript `number.toFixed(3)`: round to three decimals
and print with exactly three fractional digits. -/
def toFixed3 (q : ℚ) : String :=
  let n : Int := round (q * 1000)
  (if n < 0 then "-" else "")
    ++ toString (n.natAbs / 1000) ++ "." ++ pad3 (n.natAbs % 1000)

/-- One iteration of the `for` loop of `findBestImageMatch` (index.js
lines 364-393): resolve the image's vegetarian flag, apply the
vegetarian fail-safe, then try the cosine branch and the text branch.
A cosine-length mismatch propagates as an error, aborting the scan. -/
def considerImage (sqrt : ℚ → ℚ) (cosineThreshold textThreshold : ℚ)
    (mealName : String) (mealEmbedding : List ℚ) (mealIsVegetarian : Bool)
    (st : MatchState) (imageEmbedding : ImageRecord) : Except String MatchState :=
  let imageIsVegetarian := resolveImageVegetarian imageEmbedding
  if mealIsVegetarian && !imageIsVegetarian then Except.ok st
  else
    match calculateCosineSimilarity sqrt mealEmbedding imageEmbedding.embedding with
    | Except.error e => Except.error e
    | Except.ok cosineScore =>
      let textScore := calculateTextSimilarity mealName (imageEmbedding.name.getD "")
      if cosineScore ≥ cosineThreshold ∧ cosineScore > st.bestCosineScore then
        Except.ok
          { bestMatch := some imageEmbedding
            bestCosineScore := cosineScore
            bestTextScore := st.bestTextScore
            method := "cosine"
            reason := "Cosine similarity " ++ toFixed3 cosineScore ++ " >= "
              ++ toString cosineThreshold }
      else if st.method ≠ "cosine" ∧ textScore ≥ textThreshold
          ∧ textScore > st.bestTextScore then
        Except.ok
          { bestMatch := some imageEmbedding
            bestCosineScore := st.bestCosineScore
            bestTextScore := textScore
            method := "text"
            reason := "Text similarity " ++ toFixed3 textScore ++ " >= "
              ++ toString textThreshold }
      else Except.ok st

/-- The whole catalog scan of `findBestImageMatch`. -/
def scanImages (sqrt : ℚ → ℚ) (cosineThreshold textThreshold : ℚ)
    (mealName : String) (mealEmbedding : List ℚ) (mealIsVegetarian : Bool)
    (st : MatchState) : List ImageRecord → Except String MatchState
  | [] => Except.ok st
  | img :: rest =>
    match considerImage sqrt cosineThreshold textThreshold mealName mealEmbedding
        mealIsVegetarian st img with
    | Except.error e => Except.error e
    | Except.ok st1 =>
        scanImages sqrt cosineThreshold textThreshold mealName mealEmbedding
          mealIsVegetarian st1 rest

/-- The object `findBestImageMatch` returns on success. -/
structure MatchResult where
  bestMatch : Option ImageRecord
  cosineScore : ℚ
  textScore : ℚ
  method : String
  reason : String
  url : String
deriving Repr, DecidableEq

/-- Property lookup `cuisineMap[bestMatch.name]`: a JavaScript property
read stringifies an undefined key to the literal key "undefined". -/
def cuisineLookup (cuisineMap : String → Option Cuisine) (name : Option String) :
    Option Cuisine :=
  cuisineMap (name.getD "undefined")

/-- Model of `findBestImageMatch` (index.js lines 355-407).  Building the
result object evaluates `cuisineMap[bestMatch.name].imageUrl` with no
null check, so a scan that retained no match (bestMatch still null), or
a best match whose name is missing from the cuisine map, throws a
TypeError instead of returning; both are `Except.error` here, with the
message of the JavaScript error. -/
def findBestImageMatch (sqrt : ℚ → ℚ) (cosineThreshold textThreshold : ℚ)
    (cuisineMap : String → Option Cuisine)
    (mealName : String) (mealEmbedding : List ℚ) (mealIsVegetarian : Bool)
    (imageEmbeddings : List ImageRecord) : Except String MatchResult :=
  match scanImages sqrt cosineThreshold textThreshold mealName mealEmbedding
      mealIsVegetarian initialMatchState imageEmbeddings with
  | Except.error e => Except.error e
  | Except.ok st =>
    match st.bestMatch with
    | none => Except.error "TypeError: Cannot read properties of null (reading name)"
    | some img =>
      match cuisineLookup cuisineMap img.name with
      | none =>
          Except.error "TypeError: Cannot read properties of undefined (reading imageUrl)"
      | some cuisine =>
          Except.ok
            { bestMatch := st.bestMatch
              cosineScore := st.bestCosineScore
              textScore := st.bestTextScore
              method := st.method
              reason := st.reason
              url := cuisine.imageUrl }

/-! Batch orchestration (index.js, `processMealBatch`, `processRequestMeals`
and the mode resolution of the handler).  Embedding generation is an
external call and is a function parameter; wall-clock instants
(`Date.now()`, `new Date().toISOString()`) are parameters `now` and
`nowIso`. -/

/-- One meal to be matched. -/
structure Meal where
  id : String
  name : String
  isVegetarian : Bool
  description : String
  cuisine : String
  source : Option String
  day : Option String
  mealType : Option String
  weekStartDate : Option String
  userId : Option String
  originalDocId : Option String
deriving Repr, DecidableEq

/-- JavaScript `x || null` on an optional string field: absent stays
absent and the empty string is falsy. -/
def jsOrNull (s : Option String) : Option String :=
  match s with
  | some str => if str = "" then none else some str
  | none => none

/-- Model of `processRequestMeals` (index.js lines 175-200): each
requested name becomes a synthetic meal with a freshly classified
vegetarian flag. -/
def processRequestMeals (now : Nat) (mealNames : List String) : List Meal :=
  mealNames.enum.map (fun p =>
    { id := "request_" ++ toString p.1 ++ "_" ++ toString now
      name := p.2
      isVegetarian := detectMealVegetarian p.2 ""
      description := "Requested meal: " ++ p.2
      cuisine := "Indian"
      source := some "request"
      day := none, mealType := none, weekStartDate := none, userId := none,
      originalDocId := none })

/-- One row of the batch result list (index.js lines 461-509): the
fields of the success record, with the fields only the error record
sets (`error`) or only the success record sets made optional. -/
structure BatchResult where
  mealId : String
  mealName : String
  imageUrl : Option String
  imageName : Option String
  cosineScore : Option ℚ
  textScore : Option ℚ
  method : String
  reason : Option String
  error : Option String
  mealIsVegetarian : Option Bool
  imageIsVegetarian : Option Bool
  day : Option String
  mealType : Option String
  weekStartDate : Option String
  userId : Option String
  originalDocId : Option String
  processedAt : String
deriving Repr, DecidableEq

/-- The body of the per-meal `try`/`catch` of `processMealBatch`: embed
the meal name, run the match selector, and turn any thrown error into
an error row with `method = "error"`. -/
def processOneMeal (embed : String → Except String (List ℚ)) (sqrt : ℚ → ℚ)
    (cosineThreshold textThreshold : ℚ) (cuisineMap : String → Option Cuisine)
    (imageEmbeddings : List ImageRecord) (nowIso : String) (meal : Meal) : BatchResult :=
  match (do
      let mealEmbedding ← embed meal.name
      findBestImageMatch sqrt cosineThreshold textThreshold cuisineMap meal.name
        mealEmbedding meal.isVegetarian imageEmbeddings : Except String MatchResult) with
  | Except.ok matchResult =>
      { mealId := meal.id
        mealName := meal.name
        imageUrl := jsOrNull (some matchResult.url)
        imageName := jsOrNull (matchResult.bestMatch.bind (·.name))
        cosineScore := some matchResult.cosineScore
        textScore := some matchResult.textScore
        method := matchResult.method
        reason := some matchResult.reason
        error := none
        mealIsVegetarian := some meal.isVegetarian
        imageIsVegetarian := matchResult.bestMatch.map resolveImageVegetarian
        day := jsOrNull meal.day
        mealType := jsOrNull meal.mealType
        weekStartDate := jsOrNull meal.weekStartDate
        userId := jsOrNull meal.userId
        originalDocId := jsOrNull meal.originalDocId
        processedAt := nowIso }
  | Except.error e =>
      { mealId := meal.id
        mealName := meal.name
        imageUrl := none
        imageName := none
        cosineScore := none
        textScore := none
        method := "error"
        reason := none
        error := some e
        mealIsVegetarian := none
        imageIsVegetarian := none
        day := jsOrNull meal.day
        mealType := jsOrNull meal.mealType
        weekStartDate := jsOrNull meal.weekStartDate
        userId := jsOrNull meal.userId
        originalDocId := jsOrNull meal.originalDocId
        processedAt := nowIso }

/-- Model of `processMealBatch` (index.js lines 442-514): the sequential
loop over the batch, one result row pushed per meal. -/
def processMealBatch (embed : String → Except String (List ℚ)) (sqrt : ℚ → ℚ)
    (cosineThreshold textThreshold : ℚ) (cuisineMap : String → Option Cuisine)
    (imageEmbeddings : List ImageRecord) (nowIso : String) :
    List Meal → List BatchResult
  | [] => []
  | meal :: rest =>
      processOneMeal embed sqrt cosineThreshold textThreshold cuisineMap
          imageEmbeddings nowIso meal
        :: processMealBatch embed sqrt cosineThreshold textThreshold cuisineMap
          imageEmbeddings nowIso rest

/-! The handler's mode resolution and empty-list response (index.js
lines 590-625). -/

/-- The parsed request body: `mealNames` is present only when the JSON
object carried an array under that key. -/
structure RequestBody where
  mealNames : Option (List String)
deriving Repr, DecidableEq

/-- Outcome of `event.body` and `JSON.parse`: no body, an unparsable
body, or a parsed one. -/
def parseOutcome := Option (Except Unit RequestBody)

/-- Mode resolution of the handler: request mode only when a parsed body
holds a non-empty `mealNames` array; every other shape (no body, parse
failure, missing or empty array) falls back to fetch mode, whose meals
come from Firestore (`fetchedMeals` here). -/
def resolveModeAndMeals (parsedBody : Option (Except Unit RequestBody)) (now : Nat)
    (fetchedMeals : List Meal) : String × List Meal :=
  match parsedBody with
  | some (Except.ok requestBody) =>
    match requestBody.mealNames with
    | some names =>
        if names.length > 0 then ("request", processRequestMeals now names)
        else ("fetch", fetchedMeals)
    | none => ("fetch", fetchedMeals)
  | _ => ("fetch", fetchedMeals)

/-- The mode-dependent message of the zero-meals response (index.js
line 614). -/
def emptyResponseMessage (mode : String) : String :=
  if mode = "request" then "No meal names provided in request"
  else "No unmapped meals found"

/-- Body of the early return the handler takes when no meals are to be
processed. -/
structure EmptyResponse where
  message : String
  mode : String
  processedCount : Nat
deriving Repr, DecidableEq

/-- The handler's zero-meals short-circuit (index.js lines 613-625):
`some` response when the resolved meal list is empty, `none` when
processing continues. -/
def handlerEmptyResponse (parsedBody : Option (Except Unit RequestBody)) (now : Nat)
    (fetchedMeals : List Meal) : Option EmptyResponse :=
  let resolved := resolveModeAndMeals parsedBody now fetchedMeals
  if resolved.2.length = 0 then
    some { message := emptyResponseMessage resolved.1, mode := resolved.1,
           processedCount := 0 }
  else none

/-! Concrete fixtures used to instantiate the theorems below on explicit
inputs. -/

/-- A non-vegetarian catalog entry (no explicit flag: the classifier
sees "chicken" in the url and name). -/
def chickenImage : ImageRecord :=
  { name := some "Chicken Biryani", url := some "https://example.com/chicken-biryani.jpg",
    description := none, embedding := [1], isVegetarian := none }

/-- A vegetarian catalog entry with an explicit flag. -/
def dalImage : ImageRecord :=
  { name := some "Dal Tadka", url := some "https://example.com/dal-tadka.jpg",
    description := none, embedding := [1], isVegetarian := some true }

/-- A vegetarian entry whose embedding is orthogonal to the meal
embedding `[1, 0]` but whose name matches exactly. -/
def orthoImage : ImageRecord :=
  { name := some "dal", url := some "https://example.com/dal.jpg",
    description := none, embedding := [0, 1], isVegetarian := some true }

/-- A vegetarian entry aligned with the meal embedding `[1, 0]`. -/
def alignedImage : ImageRecord :=
  { name := some "rice", url := some "https://example.com/rice.jpg",
    description := none, embedding := [1, 0], isVegetarian := some true }

/-- A one-entry cuisine map holding the dal image's name. -/
def demoCuisineMap : String → Option Cuisine := fun n =>
  if n = "Dal Tadka" then some { name := "Dal Tadka", imageUrl := "https://img/dal.jpg" }
  else none

/-- A vegetarian meal fixture. -/
def dalMeal : Meal :=
  { id := "meal1", name := "Dal Tadka", isVegetarian := true, description := "",
    cuisine := "Indian", source := none, day := none, mealType := none,
    weekStartDate := none, userId := none, originalDocId := none }

/-- A second meal fixture. -/
def riceMeal : Meal :=
  { id := "meal2", name := "Jeera Rice", isVegetarian := true, description := "",
    cuisine := "Indian", source := none, day := none, mealType := none,
    weekStartDate := none, userId := none, originalDocId := none }

/-! Theorems. -/

/-- Case analysis of one scan step: either the state is unchanged, or the
scanned image became the best match, and then the vegetarian fail-safe
filter did not exclude it. -/
theorem considerImage_ok_cases (sqrt : ℚ → ℚ) (ct tt : ℚ) (mn : String) (me : List ℚ)
    (mv : Bool) (st st' : MatchState) (img : ImageRecord)
    (h : considerImage sqrt ct tt mn me mv st img = Except.ok st') :
    st' = st ∨ (st'.bestMatch = some img ∧ (mv && !resolveImageVegetarian img) = false) := by
  unfold considerImage at h
  split at h
  all_goals simp only at h
  all_goals split at h
  · exact Or.inl (Except.ok.inj h).symm
  · exact absurd h (by simp)
  · exact Or.inl (Except.ok.inj h).symm
  · rename_i hveg
    split at h
    · exact Or.inr ⟨by rw [← Except.ok.inj h], by simpa using hveg⟩
    · split at h
      · exact Or.inr ⟨by rw [← Except.ok.inj h], by simpa using hveg⟩
      · exact Or.inl (Except.ok.inj h).symm

/-- For a vegetarian meal, the scan only ever retains best matches whose
resolved vegetarian flag is true. -/
theorem scanImages_veg_invariant (sqrt : ℚ → ℚ) (ct tt : ℚ) (mn : String) (me : List ℚ)
    (catalog : List ImageRecord) (st st' : MatchState)
    (h : scanImages sqrt ct tt mn me true st catalog = Except.ok st')
    (hinv : ∀ img, st.bestMatch = some img → resolveImageVegetarian img = true) :
    ∀ img, st'.bestMatch = some img → resolveImageVegetarian img = true := by
  induction catalog generalizing st with
  | nil =>
    unfold scanImages at h
    cases Except.ok.inj h
    exact hinv
  | cons x xs ih =>
    unfold scanImages at h
    cases hstep : considerImage sqrt ct tt mn me true st x with
    | error e => rw [hstep] at h; exact absurd h (by simp)
    | ok st1 =>
      rw [hstep] at h
      refine ih st1 h ?_
      rcases considerImage_ok_cases sqrt ct tt mn me true st st1 x hstep with heq | ⟨hb, hv⟩
      · exact heq ▸ hinv
      · intro img himg
        rw [hb] at himg
        cases Option.some.inj himg
        simpa using hv

/-- C1.  Vegetarian fail-safe.  First part: whenever `findBestImageMatch`
returns at all for a meal flagged vegetarian, its non-null best match has
a true resolved vegetarian flag, for every catalog, cuisine map, pair of
thresholds and square-root function (hence regardless of any score).
Second part: when every catalog image is non-vegetarian the claim's
expected no-match result is not produced; the scan retains no best match
and the result building instead throws a TypeError on `bestMatch.name`,
shown here on a concrete all-non-vegetarian catalog.  So the fail-safe
half of the claim holds, and the `method = "none"` half fails on the
code (the guarded variant at meal-image-mapping.js line 761 and the
`bestMatch?.name` accesses in `processMealBatch` show the no-match
return was the intent). -/
theorem C1_vegetarian_fail_safe :
    (∀ (sqrt : ℚ → ℚ) (ct tt : ℚ) (cuisineMap : String → Option Cuisine)
       (mealName : String) (mealEmbedding : List ℚ) (imageEmbeddings : List ImageRecord)
       (r : MatchResult) (img : ImageRecord),
       findBestImageMatch sqrt ct tt cuisineMap mealName mealEmbedding true imageEmbeddings
         = Except.ok r →
       r.bestMatch = some img → resolveImageVegetarian img = true)
    ∧ resolveImageVegetarian chickenImage = false
    ∧ findBestImageMatch id (1/5) (1/5) demoCuisineMap "Dal Fry" [1] true [chickenImage]
        = Except.error "TypeError: Cannot read properties of null (reading name)" := by
  refine ⟨?_, rfl, rfl⟩
  intro sqrt ct tt cuisineMap mealName mealEmbedding imageEmbeddings r img hok hbest
  unfold findBestImageMatch at hok
  cases hscan : scanImages sqrt ct tt mealName mealEmbedding true initialMatchState
      imageEmbeddings with
  | error e => rw [hscan] at hok; exact absurd hok (by simp)
  | ok st =>
    rw [hscan] at hok
    simp only at hok
    have hst : st.bestMatch = some img := by
      cases hb : st.bestMatch with
      | none => rw [hb] at hok; exact absurd hok (by simp)
      | some img0 =>
        rw [hb] at hok
        simp only at hok
        cases hcl : cuisineLookup cuisineMap img0.name with
        | none => rw [hcl] at hok; exact absurd hok (by simp)
        | some c =>
          rw [hcl] at hok
          simp only at hok
          have hr := Except.ok.inj hok
          rw [← hr] at hbest
          simpa using hbest
    exact scanImages_veg_invariant sqrt ct tt mealName mealEmbedding imageEmbeddings
      initialMatchState st hscan (by intro i hi; exact absurd hi (by simp [initialMatchState]))
      img hst

/-- C1 witness: the fail-safe theorem applied to a concrete vegetarian
meal matched against a one-image vegetarian catalog. -/
theorem C1_vegetarian_fail_safe_witness : resolveImageVegetarian dalImage = true :=
  C1_vegetarian_fail_safe.1 id (1/5) (1/5) demoCuisineMap "Dal Tadka" [1] [dalImage]
    { bestMatch := some dalImage, cosineScore := 1, textScore := 0, method := "cosine",
      reason := "Cosine similarity 1.000 >= 1/5", url := "https://img/dal.jpg" }
    dalImage rfl rfl

/-- C2.  The no-match path of `findBestImageMatch` does not return the
documented `{bestMatch: null, method: "none", reason: "No suitable match
found"}` result: the scan of an empty catalog does retain exactly that
state (first four conjuncts), but building the result object then reads
`bestMatch.name` on null and throws, so the function fails instead of
returning (last conjunct, at a concrete empty catalog). -/
theorem C2_no_match_path_throws :
    scanImages id (1/5) (1/5) "Paneer Tikka" [1] true initialMatchState [] =
        Except.ok initialMatchState
    ∧ initialMatchState.bestMatch = none
    ∧ initialMatchState.method = "none"
    ∧ initialMatchState.reason = "No suitable match found"
    ∧ findBestImageMatch id (1/5) (1/5) demoCuisineMap "Paneer Tikka" [1] true [] =
        Except.error "TypeError: Cannot read properties of null (reading name)" :=
  ⟨rfl, rfl, rfl, rfl, rfl⟩

/-- C3 counterexample: a request body that parses to an empty `mealNames`
array fails the `length > 0` guard, so the handler stays in fetch mode;
with an empty fetch result the zero-meals response carries the fetch-mode
message, not the request-mode message the claim expects. -/
theorem C3_empty_mealNames_counterexample :
    resolveModeAndMeals (some (Except.ok ⟨some []⟩)) 0 [] = ("fetch", [])
    ∧ handlerEmptyResponse (some (Except.ok ⟨some []⟩)) 0 [] =
        some { message := "No unmapped meals found", mode := "fetch", processedCount := 0 }
    ∧ ("No unmapped meals found" ≠ "No meal names provided in request") :=
  ⟨rfl, rfl, by decide⟩

/-- C3 amended: with a body parsing to `mealNames = []` the handler falls
back to fetch mode, and if the fetch yields no meals it returns
`processedCount = 0` with the fetch-mode message; request mode always
resolves a non-empty meal list, so the request-mode empty message is
unreachable. -/
theorem C3_empty_mealNames_fetch_fallback (parsedBody : Option (Except Unit RequestBody))
    (now : Nat) (fetchedMeals : List Meal)
    (hempty : parsedBody = some (Except.ok ⟨some []⟩)) :
    resolveModeAndMeals parsedBody now fetchedMeals = ("fetch", fetchedMeals)
    ∧ (fetchedMeals = [] → handlerEmptyResponse parsedBody now fetchedMeals =
        some { message := "No unmapped meals found", mode := "fetch", processedCount := 0 })
    ∧ ∀ (pb : Option (Except Unit RequestBody)) (n : Nat) (f : List Meal),
        (resolveModeAndMeals pb n f).1 = "request" →
        (resolveModeAndMeals pb n f).2.length > 0 := by
  subst hempty
  refine ⟨rfl, ?_, ?_⟩
  · intro hf; subst hf; rfl
  · intro pb n f hreq
    match pb with
    | none => simp [resolveModeAndMeals] at hreq
    | some (Except.error _) => simp [resolveModeAndMeals] at hreq
    | some (Except.ok rb) =>
      match hm : rb.mealNames with
      | none => simp [resolveModeAndMeals, hm] at hreq
      | some names =>
        simp only [resolveModeAndMeals, hm] at hreq ⊢
        by_cases hlen : names.length > 0
        · simp only [if_pos hlen]
          simpa [processRequestMeals, List.enum_length] using hlen
        · rw [if_neg hlen] at hreq
          simp at hreq

/-- C3 amended witness: the fallback theorem applied to the concrete
empty-array body with an empty fetch result. -/
theorem C3_empty_mealNames_fetch_fallback_witness :
    resolveModeAndMeals (some (Except.ok ⟨some []⟩)) 5 [] = ("fetch", [])
    ∧ handlerEmptyResponse (some (Except.ok ⟨some []⟩)) 5 [] =
        some { message := "No unmapped meals found", mode := "fetch", processedCount := 0 } := by
  have h := C3_empty_mealNames_fetch_fallback (some (Except.ok ⟨some []⟩)) 5 [] rfl
  exact ⟨h.1, h.2.1 rfl⟩

/-- The intersection the scorer counts (elements of the first
deduplicated word list lying in the second) has the cardinality of the
word-set intersection. -/
theorem textSim_inter_card (w1 w2 : List (List Char)) :
    (w1.dedup.filter (fun w => decide (w ∈ w2.dedup))).length =
      (w1.toFinset ∩ w2.toFinset).card := by
  have nd : (w1.dedup.filter (fun w => decide (w ∈ w2.dedup))).Nodup :=
    List.Nodup.filter _ (List.nodup_dedup w1)
  rw [← List.toFinset_card_of_nodup nd]
  congr 1
  ext a
  simp [List.mem_filter, List.mem_toFinset, List.mem_dedup, Finset.mem_inter]

/-- The union the scorer counts has the cardinality of the word-set
union. -/
theorem textSim_union_card (w1 w2 : List (List Char)) :
    ((w1.dedup ++ w2.dedup).dedup).length = (w1.toFinset ∪ w2.toFinset).card := by
  rw [← List.card_toFinset]
  congr 1
  ext a
  simp [List.mem_toFinset, List.mem_append, List.mem_dedup, Finset.mem_union]

/-- C5.  `calculateTextSimilarity` returns 1 when both normalized word
lists are empty, 0 when exactly one is, and otherwise the Jaccard index
of the two word sets (duplicates ignored: cardinalities of finite-set
intersection over union); word order is irrelevant, and in particular
the two orderings of "Chicken Biryani" score 1. -/
theorem C5_text_similarity :
    (∀ t1 t2, normalize t1 = [] → normalize t2 = [] → calculateTextSimilarity t1 t2 = 1)
    ∧ (∀ t1 t2, normalize t1 = [] → normalize t2 ≠ [] → calculateTextSimilarity t1 t2 = 0)
    ∧ (∀ t1 t2, normalize t1 ≠ [] → normalize t2 = [] → calculateTextSimilarity t1 t2 = 0)
    ∧ (∀ t1 t2, normalize t1 ≠ [] → normalize t2 ≠ [] →
        calculateTextSimilarity t1 t2 =
          (((normalize t1).toFinset ∩ (normalize t2).toFinset).card : ℚ) /
            (((normalize t1).toFinset ∪ (normalize t2).toFinset).card : ℚ))
    ∧ calculateTextSimilarity "Chicken Biryani" "Biryani Chicken" = 1 := by
  refine ⟨?_, ?_, ?_, ?_, rfl⟩
  · intro t1 t2 h1 h2
    simp only [calculateTextSimilarity]
    rw [h1, h2]
    norm_num
  · intro t1 t2 h1 h2
    have h2' : (normalize t2).length ≠ 0 := fun h => h2 (List.length_eq_zero.mp h)
    simp only [calculateTextSimilarity]
    rw [h1]
    simp [h2']
  · intro t1 t2 h1 h2
    have h1' : (normalize t1).length ≠ 0 := fun h => h1 (List.length_eq_zero.mp h)
    simp only [calculateTextSimilarity]
    rw [h2]
    simp [h1']
  · intro t1 t2 h1 h2
    have h1' : (normalize t1).length ≠ 0 := fun h => h1 (List.length_eq_zero.mp h)
    have h2' : (normalize t2).length ≠ 0 := fun h => h2 (List.length_eq_zero.mp h)
    simp only [calculateTextSimilarity]
    rw [if_neg (by tauto), if_neg (by tauto)]
    rw [textSim_inter_card, textSim_union_card]

/-- C5 witness: the four branches of the text-similarity theorem at
concrete strings. -/
theorem C5_text_similarity_witness :
    calculateTextSimilarity "" "" = 1
    ∧ calculateTextSimilarity "" "x" = 0
    ∧ calculateTextSimilarity "x" "" = 0
    ∧ calculateTextSimilarity "dal rice" "rice" =
        ((((normalize "dal rice").toFinset ∩ (normalize "rice").toFinset).card : ℚ) /
          (((normalize "dal rice").toFinset ∪ (normalize "rice").toFinset).card : ℚ)) :=
  ⟨C5_text_similarity.1 "" "" rfl rfl,
   C5_text_similarity.2.1 "" "x" rfl (by decide),
   C5_text_similarity.2.2.1 "x" "" (by decide) rfl,
   C5_text_similarity.2.2.2.1 "dal rice" "rice" (by decide) (by decide)⟩

/-- The cosine accumulator loop computes the dot product and the two
squared norms. -/
theorem cosineLoop_eq (a : List ℚ) : ∀ (b : List ℚ) (acc : CosineAcc), a.length = b.length →
    cosineLoop a b acc =
      ⟨acc.dotProduct + dotProd a b, acc.normA + normSq a, acc.normB + normSq b⟩ := by
  induction a with
  | nil =>
    intro b acc h
    cases b with
    | nil => cases acc; simp [cosineLoop, dotProd, normSq]
    | cons y ys => simp at h
  | cons x xs ih =>
    intro b acc h
    cases b with
    | nil => simp at h
    | cons y ys =>
      simp only [cosineLoop]
      rw [ih ys ⟨acc.dotProduct + x * y, acc.normA + x * x, acc.normB + y * y⟩
        (by simpa using h)]
      simp only [dotProd, normSq, List.zipWith_cons_cons, List.map_cons, List.sum_cons,
        CosineAcc.mk.injEq]
      refine ⟨?_, ?_, ?_⟩ <;> ring

/-- The batch loop is a map of the per-meal body over the meal list. -/
theorem processMealBatch_eq_map (embed : String → Except String (List ℚ)) (sqrt : ℚ → ℚ)
    (ct tt : ℚ) (cmap : String → Option Cuisine) (catalog : List ImageRecord)
    (nowIso : String) (meals : List Meal) :
    processMealBatch embed sqrt ct tt cmap catalog nowIso meals =
      meals.map (processOneMeal embed sqrt ct tt cmap catalog nowIso) := by
  induction meals with
  | nil => rfl
  | cons m ms ih => simp [processMealBatch, ih]

/-- C6.  `calculateCosineSimilarity` fails with the length-mismatch
message exactly when the vector lengths differ (parts one and two);
on equal lengths it returns the dot product over the product of norms,
and exactly 0 whenever either squared norm is 0 (given only that the
abstracted `Math.sqrt` maps 0 to 0); and a per-meal error, such as a
mismatch thrown while scoring, fails only that meal: the batch is the
per-meal results in order, and a meal whose matching throws is recorded
with `method = "error"` and the message (parts four and five). -/
theorem C6_cosine_similarity :
    (∀ (sqrt : ℚ → ℚ) (a b : List ℚ), a.length ≠ b.length →
        calculateCosineSimilarity sqrt a b =
          Except.error ("Vector length mismatch: " ++ toString a.length ++ " vs "
            ++ toString b.length))
    ∧ (∀ (sqrt : ℚ → ℚ) (a b : List ℚ), a.length = b.length →
        calculateCosineSimilarity sqrt a b =
          Except.ok (if sqrt (normSq a) * sqrt (normSq b) = 0 then 0
            else dotProd a b / (sqrt (normSq a) * sqrt (normSq b))))
    ∧ (∀ (sqrt : ℚ → ℚ) (a b : List ℚ), sqrt 0 = 0 → a.length = b.length →
        normSq a = 0 ∨ normSq b = 0 →
        calculateCosineSimilarity sqrt a b = Except.ok 0)
    ∧ (∀ embed (sqrt : ℚ → ℚ) (ct tt : ℚ) cmap catalog nowIso (meal : Meal)
         (rest : List Meal),
        processMealBatch embed sqrt ct tt cmap catalog nowIso (meal :: rest) =
          processOneMeal embed sqrt ct tt cmap catalog nowIso meal
            :: processMealBatch embed sqrt ct tt cmap catalog nowIso rest)
    ∧ (∀ embed (sqrt : ℚ → ℚ) (ct tt : ℚ) cmap catalog nowIso (meal : Meal)
         (emb : List ℚ) (e : String),
        embed meal.name = Except.ok emb →
        findBestImageMatch sqrt ct tt cmap meal.name emb meal.isVegetarian catalog =
          Except.error e →
        (processOneMeal embed sqrt ct tt cmap catalog nowIso meal).method = "error"
        ∧ (processOneMeal embed sqrt ct tt cmap catalog nowIso meal).error = some e) := by
  refine ⟨?_, ?_, ?_, ?_, ?_⟩
  · intro sqrt a b h
    simp only [calculateCosineSimilarity]
    rw [if_pos h]
  · intro sqrt a b h
    simp only [calculateCosineSimilarity]
    rw [if_neg (by simp [h]), cosineLoop_eq a b ⟨0, 0, 0⟩ h]
    simp
  · intro sqrt a b hsq h h0
    simp only [calculateCosineSimilarity]
    rw [if_neg (by simp [h]), cosineLoop_eq a b ⟨0, 0, 0⟩ h]
    rcases h0 with h0 | h0 <;> simp [h0, hsq]
  · intro embed sqrt ct tt cmap catalog nowIso meal rest
    rfl
  · intro embed sqrt ct tt cmap catalog nowIso meal emb e h1 h2
    simp [processOneMeal, h1, h2, bind, Except.bind]

/-- C6 witness: the cosine theorem's parts at concrete vectors, and the
batch parts on a meal whose match building throws on an empty catalog. -/
theorem C6_cosine_similarity_witness :
    calculateCosineSimilarity id [1] [1, 2] = Except.error "Vector length mismatch: 1 vs 2"
    ∧ calculateCosineSimilarity id [1] [2] =
        Except.ok (if id (normSq [1]) * id (normSq [2]) = 0 then 0
          else dotProd [1] [2] / (id (normSq [1]) * id (normSq [2])))
    ∧ calculateCosineSimilarity id [0] [5] = Except.ok 0
    ∧ processMealBatch (fun _ => Except.ok [1]) id (1/5) (1/5) demoCuisineMap [] "t0"
        [dalMeal] =
        processOneMeal (fun _ => Except.ok [1]) id (1/5) (1/5) demoCuisineMap [] "t0" dalMeal
          :: processMealBatch (fun _ => Except.ok [1]) id (1/5) (1/5) demoCuisineMap [] "t0" []
    ∧ (processOneMeal (fun _ => Except.ok [1]) id (1/5) (1/5) demoCuisineMap [] "t0"
        dalMeal).method = "error"
    ∧ (processOneMeal (fun _ => Except.ok [1]) id (1/5) (1/5) demoCuisineMap [] "t0"
        dalMeal).error =
        some "TypeError: Cannot read properties of null (reading name)" := by
  refine ⟨C6_cosine_similarity.1 id [1] [1, 2] (by decide),
    C6_cosine_similarity.2.1 id [1] [2] rfl,
    C6_cosine_similarity.2.2.1 id [0] [5] rfl rfl (Or.inl (by decide)),
    C6_cosine_similarity.2.2.2.1 (fun _ => Except.ok [1]) id (1/5) (1/5) demoCuisineMap []
      "t0" dalMeal [],
    ?_, ?_⟩
  · exact (C6_cosine_similarity.2.2.2.2 (fun _ => Except.ok [1]) id (1/5) (1/5)
      demoCuisineMap [] "t0" dalMeal [1]
      "TypeError: Cannot read properties of null (reading name)" rfl rfl).1
  · exact (C6_cosine_similarity.2.2.2.2 (fun _ => Except.ok [1]) id (1/5) (1/5)
      demoCuisineMap [] "t0" dalMeal [1]
      "TypeError: Cannot read properties of null (reading name)" rfl rfl).2

/-- C8.  Per-meal error isolation in `processMealBatch`: the batch always
has exactly one result per input meal, the i-th result is the per-meal
body applied to the i-th meal alone (so a failure cannot affect later
meals), and a meal whose embedding call fails is recorded with
`method = "error"` and the thrown message. -/
theorem C8_per_meal_error_isolation (embed : String → Except String (List ℚ)) (sqrt : ℚ → ℚ)
    (ct tt : ℚ) (cmap : String → Option Cuisine) (catalog : List ImageRecord)
    (nowIso : String) (meals : List Meal) :
    (processMealBatch embed sqrt ct tt cmap catalog nowIso meals).length = meals.length
    ∧ (∀ i : Nat, (processMealBatch embed sqrt ct tt cmap catalog nowIso meals)[i]? =
        (meals[i]?).map (processOneMeal embed sqrt ct tt cmap catalog nowIso))
    ∧ (∀ (i : Nat) (meal : Meal) (msg : String), meals[i]? = some meal →
        embed meal.name = Except.error msg →
        (processMealBatch embed sqrt ct tt cmap catalog nowIso meals)[i]? =
          some (processOneMeal embed sqrt ct tt cmap catalog nowIso meal)
        ∧ (processOneMeal embed sqrt ct tt cmap catalog nowIso meal).method = "error"
        ∧ (processOneMeal embed sqrt ct tt cmap catalog nowIso meal).error = some msg) := by
  refine ⟨?_, ?_, ?_⟩
  · rw [processMealBatch_eq_map]
    exact List.length_map _ _
  · intro i
    rw [processMealBatch_eq_map]
    exact List.getElem?_map _ meals i
  · intro i meal msg hmeal hfail
    refine ⟨?_, ?_, ?_⟩
    · rw [processMealBatch_eq_map, List.getElem?_map _ meals i, hmeal]
      rfl
    · simp [processOneMeal, hfail, bind, Except.bind]
    · simp [processOneMeal, hfail, bind, Except.bind]

/-- C8 witness: a two-meal batch whose first embedding call fails keeps
two result rows, and the first row records the error. -/
theorem C8_per_meal_error_isolation_witness :
    (processMealBatch
        (fun n => if n = "Dal Tadka" then Except.error "OpenAI API error: 429" else Except.ok [1])
        id (1/5) (1/5) demoCuisineMap [dalImage] "t0" [dalMeal, riceMeal]).length = 2
    ∧ (processMealBatch
        (fun n => if n = "Dal Tadka" then Except.error "OpenAI API error: 429" else Except.ok [1])
        id (1/5) (1/5) demoCuisineMap [dalImage] "t0" [dalMeal, riceMeal])[0]? =
        some (processOneMeal
          (fun n => if n = "Dal Tadka" then Except.error "OpenAI API error: 429" else Except.ok [1])
          id (1/5) (1/5) demoCuisineMap [dalImage] "t0" dalMeal)
    ∧ (processOneMeal
        (fun n => if n = "Dal Tadka" then Except.error "OpenAI API error: 429" else Except.ok [1])
        id (1/5) (1/5) demoCuisineMap [dalImage] "t0" dalMeal).method = "error"
    ∧ (processOneMeal
        (fun n => if n = "Dal Tadka" then Except.error "OpenAI API error: 429" else Except.ok [1])
        id (1/5) (1/5) demoCuisineMap [dalImage] "t0" dalMeal).error =
        some "OpenAI API error: 429" := by
  have h := C8_per_meal_error_isolation
    (fun n => if n = "Dal Tadka" then Except.error "OpenAI API error: 429" else Except.ok [1])
    id (1/5) (1/5) demoCuisineMap [dalImage] "t0" [dalMeal, riceMeal]
  have h3 := h.2.2 0 dalMeal "OpenAI API error: 429" rfl rfl
  exact ⟨h.1, h3.1, h3.2.1, h3.2.2⟩

/-- The strong non-vegetarian check is decisive: whenever it fires the
classifier returns false, regardless of everything after it (the strong
vegetarian check included). -/
theorem detectMeal_strong_nonveg_false (mealName description : String)
    (h0 : mealName ≠ "")
    (h : STRONG_NON_VEGETARIAN_INDICATORS.any
      (fun ind => includes (mealText mealName description) ind) = true) :
    detectMealVegetarian mealName description = false := by
  simp only [detectMealVegetarian]
  rw [if_neg h0, if_pos h]

/-- C7.  `detectMealVegetarian` on the lower-cased name-plus-description
text: any strong non-vegetarian hit returns false immediately, before
the strong vegetarian check is consulted (part one places no condition
on the vegetarian indicators); with neither strong set matching the
result is exactly "vegetarian count at least non-vegetarian count",
which favors ties and makes zero-zero default to true (part two); and
the three concrete classifications of the claim hold. -/
theorem C7_detect_meal_vegetarian :
    (∀ mealName description, mealName ≠ "" →
       STRONG_NON_VEGETARIAN_INDICATORS.any
         (fun ind => includes (mealText mealName description) ind) = true →
       detectMealVegetarian mealName description = false)
    ∧ (∀ mealName description, mealName ≠ "" →
       STRONG_NON_VEGETARIAN_INDICATORS.any
         (fun ind => includes (mealText mealName description) ind) = false →
       STRONG_VEGETARIAN_INDICATORS.any
         (fun ind => includes (mealText mealName description) ind) = false →
       detectMealVegetarian mealName description =
         decide (indicatorScore (mealText mealName description) NON_VEGETARIAN_INDICATORS ≤
           indicatorScore (mealText mealName description) VEGETARIAN_INDICATORS))
    ∧ detectMealVegetarian "Chicken Biryani" "" = false
    ∧ detectMealVegetarian "Dal Makhani" "" = true
    ∧ detectMealVegetarian "Unknown Dish XYZ" "" = true := by
  refine ⟨detectMeal_strong_nonveg_false, ?_, rfl, rfl, rfl⟩
  intro mealName description h0 hnv hv
  simp only [detectMealVegetarian]
  rw [if_neg h0, if_neg (by simp [hnv]), if_neg (by simp [hv])]
  by_cases hz : indicatorScore (mealText mealName description) VEGETARIAN_INDICATORS = 0 ∧
      indicatorScore (mealText mealName description) NON_VEGETARIAN_INDICATORS = 0
  · rw [if_pos hz]
    rw [hz.1, hz.2]
    decide
  · rw [if_neg hz]

/-- C7 witness: a text hitting both strong sets classifies false (the
non-vegetarian check runs first), and a neutral text follows the count
comparison. -/
theorem C7_detect_meal_vegetarian_witness :
    detectMealVegetarian "vegetarian chicken pizza" "" = false
    ∧ detectMealVegetarian "Dal Makhani" "" =
        decide (indicatorScore (mealText "Dal Makhani" "") NON_VEGETARIAN_INDICATORS ≤
          indicatorScore (mealText "Dal Makhani" "") VEGETARIAN_INDICATORS) :=
  ⟨C7_detect_meal_vegetarian.1 "vegetarian chicken pizza" "" (by decide) (by decide),
   C7_detect_meal_vegetarian.2.1 "Dal Makhani" "" (by decide) (by decide) (by decide)⟩

/-- C10.  The strong keyword checks are substring containment on the
whole text, not word matching: any text containing a strong
non-vegetarian indicator classifies false, even inside a longer word;
concretely "Eggplant Curry" classifies false because "eggplant" contains
the strong indicator "egg", although "eggplant" itself is in the
vegetarian indicator list. -/
theorem C10_substring_containment :
    (∀ mealName description ind, ind ∈ STRONG_NON_VEGETARIAN_INDICATORS → mealName ≠ "" →
       includes (mealText mealName description) ind = true →
       detectMealVegetarian mealName description = false)
    ∧ detectMealVegetarian "Eggplant Curry" "" = false
    ∧ "eggplant" ∈ VEGETARIAN_INDICATORS
    ∧ "egg" ∈ STRONG_NON_VEGETARIAN_INDICATORS
    ∧ includes "eggplant" "egg" = true
    ∧ includes (mealText "Eggplant Curry" "") "egg" = true := by
  refine ⟨?_, rfl, by decide, by decide, rfl, rfl⟩
  intro mealName description ind hmem h0 hinc
  exact detectMeal_strong_nonveg_false mealName description h0
    (List.any_eq_true.mpr ⟨ind, hmem, hinc⟩)

/-- C10 witness: the substring theorem applied to another word containing
the indicator "egg". -/
theorem C10_substring_containment_witness : detectMealVegetarian "Eggplant Soup" "" = false :=
  C10_substring_containment.1 "Eggplant Soup" "" "egg" (by decide) (by decide) rfl

/-- C9.  When the scan retains a non-null best match whose name is not a
key of the loaded cuisine map (as when the map silently fell back to an
empty one on a load failure), building the result's url field throws a
TypeError instead of returning a `MatchResult`, and the per-meal catch
then records the meal with `method = "error"`, even though a qualifying
image existed in the catalog. -/
theorem C9_missing_cuisine_key (sqrt : ℚ → ℚ) (ct tt : ℚ)
    (cuisineMap : String → Option Cuisine)
    (mealName : String) (mealEmbedding : List ℚ) (mealIsVegetarian : Bool)
    (imageEmbeddings : List ImageRecord) (st : MatchState) (img : ImageRecord)
    (hscan : scanImages sqrt ct tt mealName mealEmbedding mealIsVegetarian
      initialMatchState imageEmbeddings = Except.ok st)
    (hbest : st.bestMatch = some img)
    (hmiss : cuisineLookup cuisineMap img.name = none) :
    findBestImageMatch sqrt ct tt cuisineMap mealName mealEmbedding mealIsVegetarian
        imageEmbeddings =
      Except.error "TypeError: Cannot read properties of undefined (reading imageUrl)"
    ∧ ∀ (embed : String → Except String (List ℚ)) (nowIso : String) (meal : Meal),
        meal.name = mealName → meal.isVegetarian = mealIsVegetarian →
        embed mealName = Except.ok mealEmbedding →
        (processOneMeal embed sqrt ct tt cuisineMap imageEmbeddings nowIso meal).method =
          "error"
        ∧ (processOneMeal embed sqrt ct tt cuisineMap imageEmbeddings nowIso meal).error =
          some "TypeError: Cannot read properties of undefined (reading imageUrl)" := by
  have hmain : findBestImageMatch sqrt ct tt cuisineMap mealName mealEmbedding
      mealIsVegetarian imageEmbeddings =
      Except.error "TypeError: Cannot read properties of undefined (reading imageUrl)" := by
    unfold findBestImageMatch
    rw [hscan]
    simp only
    rw [hbest]
    simp only
    rw [hmiss]
  refine ⟨hmain, ?_⟩
  intro embed nowIso meal hname hveg hembed
  simp [processOneMeal, hname, hveg, hembed, hmain, bind, Except.bind]

/-- C9 witness: a vegetarian meal whose one-image catalog qualifies via
cosine, against an empty cuisine map. -/
theorem C9_missing_cuisine_key_witness :
    findBestImageMatch id (1/5) (1/5) (fun _ => none) "Dal Tadka" [1] true [dalImage] =
      Except.error "TypeError: Cannot read properties of undefined (reading imageUrl)"
    ∧ (processOneMeal (fun _ => Except.ok [1]) id (1/5) (1/5) (fun _ => none) [dalImage]
        "t0" dalMeal).method = "error"
    ∧ (processOneMeal (fun _ => Except.ok [1]) id (1/5) (1/5) (fun _ => none) [dalImage]
        "t0" dalMeal).error =
        some "TypeError: Cannot read properties of undefined (reading imageUrl)" := by
  have h := C9_missing_cuisine_key id (1/5) (1/5) (fun _ => none) "Dal Tadka" [1] true
    [dalImage]
    { bestMatch := some dalImage, bestCosineScore := 1, bestTextScore := 0,
      method := "cosine", reason := "Cosine similarity 1.000 >= 1/5" }
    dalImage rfl rfl rfl
  have h2 := h.2 (fun _ => Except.ok [1]) "t0" dalMeal rfl rfl rfl
  exact ⟨h.1, h2.1, h2.2⟩

/-- Once the loop state's method is cosine, one more scan step keeps it
cosine: the text branch is guarded by `method !== "cosine"` and the
cosine branch re-asserts it. -/
theorem considerImage_cosine_absorbing (sqrt : ℚ → ℚ) (ct tt : ℚ) (mn : String)
    (me : List ℚ) (mv : Bool) (st st' : MatchState) (img : ImageRecord)
    (hm : st.method = "cosine")
    (h : considerImage sqrt ct tt mn me mv st img = Except.ok st') :
    st'.method = "cosine" := by
  unfold considerImage at h
  split at h
  all_goals simp only at h
  all_goals split at h
  · rw [← Except.ok.inj h]; exact hm
  · exact absurd h (by simp)
  · rw [← Except.ok.inj h]; exact hm
  · split at h
    · rw [← Except.ok.inj h]
    · split at h
      · rename_i hcond
        exact absurd hm hcond.1
      · rw [← Except.ok.inj h]; exact hm

/-- One scan step preserves the invariant that a state not yet on the
cosine method still carries the initial best cosine score 0. -/
theorem considerImage_score_invariant (sqrt : ℚ → ℚ) (ct tt : ℚ) (mn : String)
    (me : List ℚ) (mv : Bool) (st st' : MatchState) (img : ImageRecord)
    (hinv : st.method = "cosine" ∨ st.bestCosineScore = 0)
    (h : considerImage sqrt ct tt mn me mv st img = Except.ok st') :
    st'.method = "cosine" ∨ st'.bestCosineScore = 0 := by
  unfold considerImage at h
  split at h
  all_goals simp only at h
  all_goals split at h
  · rw [← Except.ok.inj h]; exact hinv
  · exact absurd h (by simp)
  · rw [← Except.ok.inj h]; exact hinv
  · split at h
    · rw [← Except.ok.inj h]; exact Or.inl rfl
    · split at h
      · rename_i hcond
        rw [← Except.ok.inj h]
        rcases hinv with hc | h0
        · exact absurd hc hcond.1
        · exact Or.inr h0
      · rw [← Except.ok.inj h]; exact hinv

/-- A surviving image whose cosine score passes a positive threshold is
taken by the cosine branch whenever the running best cosine score is
still 0. -/
theorem considerImage_qualifying (sqrt : ℚ → ℚ) (ct tt : ℚ) (mn : String)
    (me : List ℚ) (mv : Bool) (st : MatchState) (img : ImageRecord) (c : ℚ)
    (hfilter : (mv && !resolveImageVegetarian img) = false)
    (hcos : calculateCosineSimilarity sqrt me img.embedding = Except.ok c)
    (hge : ct ≤ c) (hpos : 0 < ct) (hbest0 : st.bestCosineScore = 0) :
    considerImage sqrt ct tt mn me mv st img =
      Except.ok
        { bestMatch := some img
          bestCosineScore := c
          bestTextScore := st.bestTextScore
          method := "cosine"
          reason := "Cosine similarity " ++ toFixed3 c ++ " >= " ++ toString ct } := by
  simp only [considerImage]
  rw [hfilter]
  simp only [Bool.false_eq_true, if_false]
  rw [hcos]
  simp only
  rw [if_pos ⟨hge, by rw [hbest0]; exact lt_of_lt_of_le hpos hge⟩]

/-- The cosine method, once reached, survives scanning any remaining
list of images. -/
theorem scanImages_cosine_absorbing (sqrt : ℚ → ℚ) (ct tt : ℚ) (mn : String)
    (me : List ℚ) (mv : Bool) (l : List ImageRecord) (st st' : MatchState)
    (hm : st.method = "cosine")
    (h : scanImages sqrt ct tt mn me mv st l = Except.ok st') :
    st'.method = "cosine" := by
  induction l generalizing st with
  | nil => unfold scanImages at h; rw [← Except.ok.inj h]; exact hm
  | cons x xs ih =>
    unfold scanImages at h
    cases hstep : considerImage sqrt ct tt mn me mv st x with
    | error e => rw [hstep] at h; exact absurd h (by simp)
    | ok st1 =>
      rw [hstep] at h
      exact ih st1 (considerImage_cosine_absorbing sqrt ct tt mn me mv st st1 x hm hstep) h

/-- The non-cosine-means-score-zero invariant survives a whole scan. -/
theorem scanImages_score_invariant (sqrt : ℚ → ℚ) (ct tt : ℚ) (mn : String)
    (me : List ℚ) (mv : Bool) (l : List ImageRecord) (st st' : MatchState)
    (hinv : st.method = "cosine" ∨ st.bestCosineScore = 0)
    (h : scanImages sqrt ct tt mn me mv st l = Except.ok st') :
    st'.method = "cosine" ∨ st'.bestCosineScore = 0 := by
  induction l generalizing st with
  | nil => unfold scanImages at h; rw [← Except.ok.inj h]; exact hinv
  | cons x xs ih =>
    unfold scanImages at h
    cases hstep : considerImage sqrt ct tt mn me mv st x with
    | error e => rw [hstep] at h; exact absurd h (by simp)
    | ok st1 =>
      rw [hstep] at h
      exact ih st1 (considerImage_score_invariant sqrt ct tt mn me mv st st1 x hinv hstep) h

/-- If a scan from an invariant state ends on a non-cosine method, then
no surviving image of the scanned list had a cosine score reaching a
positive threshold. -/
theorem scanImages_no_qualifying_cosine (sqrt : ℚ → ℚ) (ct tt : ℚ) (mn : String)
    (me : List ℚ) (mv : Bool) (hpos : 0 < ct) (l : List ImageRecord) (st0 st : MatchState)
    (hinv : st0.method = "cosine" ∨ st0.bestCosineScore = 0)
    (h : scanImages sqrt ct tt mn me mv st0 l = Except.ok st)
    (hm : st.method ≠ "cosine") :
    ∀ img ∈ l, (mv && !resolveImageVegetarian img) = false →
      ∀ c, calculateCosineSimilarity sqrt me img.embedding = Except.ok c → c < ct := by
  induction l generalizing st0 with
  | nil => intro img himg; exact absurd himg (by simp)
  | cons x xs ih =>
    unfold scanImages at h
    cases hstep : considerImage sqrt ct tt mn me mv st0 x with
    | error e => rw [hstep] at h; exact absurd h (by simp)
    | ok st1 =>
      rw [hstep] at h
      intro img himg hfilter c hcos
      rcases List.mem_cons.mp himg with heq | hmem
      · subst heq
        by_contra hnlt
        have hge : ct ≤ c := le_of_not_lt hnlt
        rcases hinv with hc | h0
        · exact hm (scanImages_cosine_absorbing sqrt ct tt mn me mv (img :: xs) st0 st hc
            (by unfold scanImages; rw [hstep]; exact h))
        · have hq := considerImage_qualifying sqrt ct tt mn me mv st0 img c hfilter hcos
            hge hpos h0
          have hst1 := Except.ok.inj (hq ▸ hstep)
          have hm1 : st1.method = "cosine" := by rw [← hst1]
          exact hm (scanImages_cosine_absorbing sqrt ct tt mn me mv xs st1 st hm1 h)
      · exact ih st1
          (considerImage_score_invariant sqrt ct tt mn me mv st0 st1 x hinv hstep) h
          img hmem hfilter c hcos

/-- C4.  Selection priority under a positive cosine threshold (the
configuration default is 0.2): a scan ending with `method = "text"`
means no image surviving the vegetarian filter anywhere in the catalog
had a qualifying cosine score (part one); once a state is on the cosine
method no later image can move it to text (part two); and conversely a
later image with a qualifying cosine score does replace a current
text-method best match (part three). -/
theorem C4_selection_priority (sqrt : ℚ → ℚ) (ct tt : ℚ) (hpos : 0 < ct)
    (mn : String) (me : List ℚ) (mv : Bool) :
    (∀ (catalog : List ImageRecord) (st : MatchState),
       scanImages sqrt ct tt mn me mv initialMatchState catalog = Except.ok st →
       st.method = "text" →
       ∀ img ∈ catalog, (mv && !resolveImageVegetarian img) = false →
         ∀ c, calculateCosineSimilarity sqrt me img.embedding = Except.ok c → c < ct)
    ∧ (∀ (st st' : MatchState) (img : ImageRecord), st.method = "cosine" →
         considerImage sqrt ct tt mn me mv st img = Except.ok st' →
         st'.method = "cosine")
    ∧ (∀ (pre : List ImageRecord) (st st' : MatchState) (img : ImageRecord) (c : ℚ),
         scanImages sqrt ct tt mn me mv initialMatchState pre = Except.ok st →
         st.method = "text" →
         (mv && !resolveImageVegetarian img) = false →
         calculateCosineSimilarity sqrt me img.embedding = Except.ok c →
         ct ≤ c →
         considerImage sqrt ct tt mn me mv st img = Except.ok st' →
         st'.method = "cosine" ∧ st'.bestMatch = some img) := by
  refine ⟨?_, ?_, ?_⟩
  · intro catalog st hscan htext
    exact scanImages_no_qualifying_cosine sqrt ct tt mn me mv hpos catalog
      initialMatchState st (Or.inr rfl) hscan (by rw [htext]; decide)
  · intro st st' img hm hstep
    exact considerImage_cosine_absorbing sqrt ct tt mn me mv st st' img hm hstep
  · intro pre st st' img c hscan htext hfilter hcos hge hstep
    have hinv := scanImages_score_invariant sqrt ct tt mn me mv pre initialMatchState st
      (Or.inr rfl) hscan
    have h0 : st.bestCosineScore = 0 := by
      rcases hinv with hc | h0
      · rw [htext] at hc; exact absurd hc (by decide)
      · exact h0
    have hq := considerImage_qualifying sqrt ct tt mn me mv st img c hfilter hcos hge hpos h0
    have hrec := Except.ok.inj (hq.symm.trans hstep)
    constructor
    · rw [← hrec]
    · rw [← hrec]

/-- C4 witness: a catalog whose one image matches only by text yields a
text-state in which every surviving image's cosine score is below the
threshold, and scanning one further image with a qualifying cosine score
replaces that text match by a cosine one. -/
theorem C4_selection_priority_witness :
    ((0 : ℚ) < 1/5)
    ∧ ({ bestMatch := some alignedImage, bestCosineScore := 1, bestTextScore := 1,
         method := "cosine",
         reason := "Cosine similarity 1.000 >= 1/5" } : MatchState).method = "cosine"
    ∧ ({ bestMatch := some alignedImage, bestCosineScore := 1, bestTextScore := 1,
         method := "cosine",
         reason := "Cosine similarity 1.000 >= 1/5" } : MatchState).bestMatch =
        some alignedImage := by
  have h := C4_selection_priority id (1/5) (1/5) (by decide) "dal" [1, 0] true
  refine ⟨?_, ?_⟩
  · exact h.1 [orthoImage]
      { bestMatch := some orthoImage, bestCosineScore := 0, bestTextScore := 1,
        method := "text", reason := "Text similarity 1.000 >= 1/5" }
      rfl rfl orthoImage (by simp) rfl 0 rfl
  · exact h.2.2 [orthoImage]
      { bestMatch := some orthoImage, bestCosineScore := 0, bestTextScore := 1,
        method := "text", reason := "Text similarity 1.000 >= 1/5" }
      { bestMatch := some alignedImage, bestCosineScore := 1, bestTextScore := 1,
        method := "cosine", reason := "Cosine similarity 1.000 >= 1/5" }
      alignedImage 1 rfl rfl rfl rfl (by decide) rfl

end MealImageMapping
